import Mathlib

/-
Verification development for the homework_bot polling module (homework.py).

The module is shallowly embedded: Python dynamic values become the
inductive `PyVal`, Python exceptions become `PyError`, fallible functions
return `Except PyError _`, and the effects of one iteration of the
`while True` loop in `main` are captured by `mainCycle`, which is
parameterised by oracles standing for the two external collaborators
(the HTTP endpoint and the Telegram messaging channel).
-/

set_option autoImplicit false
set_option linter.unusedVariables false

/-- Python-like dynamic values: JSON-decoded payloads, homework items and
checkpoint values all live in this type.  Dict keys are strings, as for
JSON-decoded objects. -/
inductive PyVal : Type where
  | pyStr (s : String)
  | pyInt (n : Int)
  | pyList (xs : List PyVal)
  | pyDict (kvs : List (String × PyVal))
  | pyNone

mutual

/-- Decidable equality for `PyVal` (the nested inductive defeats automatic
derivation, so the three mutually recursive deciders are spelled out). -/
def PyVal.decEq : (a b : PyVal) → Decidable (a = b)
  | .pyStr a, .pyStr b =>
      if h : a = b then isTrue (by rw [h])
      else isFalse (fun hh => h (PyVal.pyStr.inj hh))
  | .pyInt a, .pyInt b =>
      if h : a = b then isTrue (by rw [h])
      else isFalse (fun hh => h (PyVal.pyInt.inj hh))
  | .pyList xs, .pyList ys =>
      match PyVal.decEqList xs ys with
      | isTrue h => isTrue (by rw [h])
      | isFalse h => isFalse (fun hh => h (PyVal.pyList.inj hh))
  | .pyDict xs, .pyDict ys =>
      match PyVal.decEqDict xs ys with
      | isTrue h => isTrue (by rw [h])
      | isFalse h => isFalse (fun hh => h (PyVal.pyDict.inj hh))
  | .pyNone, .pyNone => isTrue rfl
  | .pyStr _, .pyInt _ => isFalse (fun h => PyVal.noConfusion h)
  | .pyStr _, .pyList _ => isFalse (fun h => PyVal.noConfusion h)
  | .pyStr _, .pyDict _ => isFalse (fun h => PyVal.noConfusion h)
  | .pyStr _, .pyNone => isFalse (fun h => PyVal.noConfusion h)
  | .pyInt _, .pyStr _ => isFalse (fun h => PyVal.noConfusion h)
  | .pyInt _, .pyList _ => isFalse (fun h => PyVal.noConfusion h)
  | .pyInt _, .pyDict _ => isFalse (fun h => PyVal.noConfusion h)
  | .pyInt _, .pyNone => isFalse (fun h => PyVal.noConfusion h)
  | .pyList _, .pyStr _ => isFalse (fun h => PyVal.noConfusion h)
  | .pyList _, .pyInt _ => isFalse (fun h => PyVal.noConfusion h)
  | .pyList _, .pyDict _ => isFalse (fun h => PyVal.noConfusion h)
  | .pyList _, .pyNone => isFalse (fun h => PyVal.noConfusion h)
  | .pyDict _, .pyStr _ => isFalse (fun h => PyVal.noConfusion h)
  | .pyDict _, .pyInt _ => isFalse (fun h => PyVal.noConfusion h)
  | .pyDict _, .pyList _ => isFalse (fun h => PyVal.noConfusion h)
  | .pyDict _, .pyNone => isFalse (fun h => PyVal.noConfusion h)
  | .pyNone, .pyStr _ => isFalse (fun h => PyVal.noConfusion h)
  | .pyNone, .pyInt _ => isFalse (fun h => PyVal.noConfusion h)
  | .pyNone, .pyList _ => isFalse (fun h => PyVal.noConfusion h)
  | .pyNone, .pyDict _ => isFalse (fun h => PyVal.noConfusion h)

/-- Decidable equality for lists of `PyVal`. -/
def PyVal.decEqList : (xs ys : List PyVal) → Decidable (xs = ys)
  | [], [] => isTrue rfl
  | [], _ :: _ => isFalse (fun h => List.noConfusion h)
  | _ :: _, [] => isFalse (fun h => List.noConfusion h)
  | x :: xs, y :: ys =>
      match PyVal.decEq x y, PyVal.decEqList xs ys with
      | isTrue h1, isTrue h2 => isTrue (by rw [h1, h2])
      | isFalse h1, _ => isFalse (fun h => h1 (List.cons.inj h).1)
      | _, isFalse h2 => isFalse (fun h => h2 (List.cons.inj h).2)

/-- Decidable equality for dict entry lists. -/
def PyVal.decEqDict :
    (xs ys : List (String × PyVal)) → Decidable (xs = ys)
  | [], [] => isTrue rfl
  | [], _ :: _ => isFalse (fun h => List.noConfusion h)
  | _ :: _, [] => isFalse (fun h => List.noConfusion h)
  | (k1, v1) :: xs, (k2, v2) :: ys =>
      if hk : k1 = k2 then
        match PyVal.decEq v1 v2, PyVal.decEqDict xs ys with
        | isTrue h1, isTrue h2 => isTrue (by rw [hk, h1, h2])
        | isFalse h1, _ => isFalse (fun h =>
            h1 (congrArg Prod.snd (List.cons.inj h).1))
        | _, isFalse h2 => isFalse (fun h => h2 (List.cons.inj h).2)
      else
        isFalse (fun h => hk (congrArg Prod.fst (List.cons.inj h).1))

end

instance : DecidableEq PyVal := PyVal.decEq

/-- The exception classes homework.py raises or catches. -/
inductive PyError : Type where
  | typeError (msg : String)
  | keyError (msg : String)
  | valueError (msg : String)
  | attributeError (msg : String)
  | connectionError (msg : String)
  | statusError (msg : String)
  | apiException (msg : String)
deriving DecidableEq

/-- Membership test `k in d` for a dict modelled as an association list (first binding wins,
matching Python dict semantics for string keys). -/
def dictContains (kvs : List (String × PyVal)) (k : String) : Bool :=
  kvs.any (fun p => p.1 == k)

/-- Lookup `d.get(k)`: the value bound to `k`, or `none` when the key is absent. -/
def dictGet (kvs : List (String × PyVal)) (k : String) : Option PyVal :=
  (kvs.find? (fun p => p.1 == k)).map (fun p => p.2)

/-- Python `str()` of a value, as used inside f-strings.  Container values
never reach a rendered message on any path exercised here (an unhashable
status raises before formatting), so their rendering is abbreviated. -/
def pyToStr : PyVal → String
  | .pyStr s => s
  | .pyInt n => toString n
  | .pyNone => "None"
  | .pyList _ => "[...]"
  | .pyDict _ => "\x7b...\x7d"

/-- Python `str()` of an optional value: Python renders a missing `.get` result
(`None`) as `None`. -/
def optPyToStr : Option PyVal → String
  | some v => pyToStr v
  | none => "None"

/-- Constant `RETRY_PERIOD = 600` (homework.py line 23). -/
def RETRY_PERIOD : Nat := 600

/-- Table `HOMEWORK_VERDICTS` (homework.py lines 29-33): the fixed status-to-verdict
table. -/
def HOMEWORK_VERDICTS : List (String × String) :=
  [("approved", "Работа проверена: ревьюеру всё понравилось. Ура!"),
   ("reviewing", "Работа взята на проверку ревьюером."),
   ("rejected", "Работа проверена: у ревьюера есть замечания.")]

/-- Lookup `HOMEWORK_VERDICTS.get(s)` for a string key `s`. -/
def verdictsFind (s : String) : Option String :=
  (HOMEWORK_VERDICTS.find? (fun p => p.1 == s)).map (fun p => p.2)

/-- Lookup `HOMEWORK_VERDICTS.get(status)` where `status = homework.get("status")`
(homework.py line 149).  A missing key yields Python `None`, which is a
hashable non-key, so the lookup returns `None`; an unhashable value
(list or dict) makes `dict.get` raise `TypeError` before any later check
in `parse_status` runs. -/
def verdictsGet : Option PyVal → Except PyError (Option String)
  | none => .ok none
  | some (.pyStr s) => .ok (verdictsFind s)
  | some (.pyInt _) => .ok none
  | some .pyNone => .ok none
  | some (.pyList _) => .error (.typeError "unhashable type: \x27list\x27")
  | some (.pyDict _) => .error (.typeError "unhashable type: \x27dict\x27")

/-- Closure state of the `check_message` decorator (homework.py lines 49-59):
`previous_message` starts as the empty string. -/
structure CheckMessageState where
  previous_message : String
deriving DecidableEq

/-- One call of the `wrapper` produced by `check_message`.  Returns the state
after the call and whether the wrapped function was invoked.  Line 57 of
the source reads `previous_message == message`: an equality test whose
result is discarded, not an assignment, so the closure state is returned
unchanged on every path. -/
def check_message_wrapper (st : CheckMessageState) (message : String) :
    CheckMessageState × Bool :=
  if message ≠ st.previous_message then
    (st, true)
  else
    (st, false)

/-- Outcome of the one HTTP request a cycle issues: either
`requests.get` raises a `RequestException`, or it completes with a status
code and a decoded JSON body.  This is the oracle standing for the remote
endpoint. -/
inductive HttpResult : Type where
  | exn (msg : String)
  | resp (status_code : Nat) (body : PyVal)
deriving DecidableEq

/-- Function `get_api_answer(timestamp)` (homework.py lines 85-108): issues the request
with params `{"from_date": timestamp}`, converts `RequestException` into
`ConnectionError`, raises `StatusError` on a non-200 code, and otherwise
returns the decoded body. -/
def get_api_answer (timestamp : PyVal) (http : HttpResult) :
    Except PyError PyVal :=
  let payload : List (String × PyVal) := [("from_date", timestamp)]
  match http with
  | .exn msg => .error (.connectionError ("Произошла ошибка: " ++ msg ++ "."))
  | .resp status_code body =>
      if status_code ≠ 200 then
        .error (.statusError
          ("Запрос завершился с кодом: " ++ toString status_code ++ "."))
      else
        .ok body

/-- Function `check_response(response)` (homework.py lines 111-140): `TypeError` when
the payload is not a dict, `KeyError` when the `homeworks` key is absent,
`TypeError` when its value is not a list, and otherwise the list itself,
unchanged. -/
def check_response (response : PyVal) : Except PyError (List PyVal) :=
  match response with
  | .pyDict kvs =>
      if ¬ dictContains kvs "homeworks" then
        .error (.keyError "Отсутствует ключ со списком домашних работ.")
      else
        match dictGet kvs "homeworks" with
        | some (.pyList homeworks) => .ok homeworks
        | _ => .error (.typeError
            "Значение ключа homeworks не соответствует ожидаемому формату.")
  | _ => .error (.typeError "Тип данных не соответствует ожидаемому формату.")

/-- The keys `parse_status` reports as missing (homework.py lines 151-152). -/
def missingKeys (kvs : List (String × PyVal)) : List String :=
  (["homework_name", "status"]).filter (fun key => ! dictContains kvs key)

/-- Whether an optional value is hashable, i.e. whether Python
`HOMEWORK_VERDICTS.get(status)` completes instead of raising `TypeError`
(absent keys give `None`, which is hashable; lists and dicts are not). -/
def hashableOpt : Option PyVal → Bool
  | some (.pyList _) => false
  | some (.pyDict _) => false
  | _ => true

/-- Function `parse_status(homework)` (homework.py lines 143-163).  The verdict lookup
at line 149 runs before the missing-keys check at lines 151-154, so an
unhashable `status` value raises `TypeError` first; then missing keys
raise `KeyError`, an unknown status raises `ValueError`, and otherwise the
notification text is produced.  Calling `.get` on a non-dict raises
`AttributeError`. -/
def parse_status (homework : PyVal) : Except PyError String :=
  match homework with
  | .pyDict kvs =>
      let homework_name := dictGet kvs "homework_name"
      let status := dictGet kvs "status"
      match verdictsGet status with
      | .error e => .error e
      | .ok verdict =>
          if ¬ (missingKeys kvs).isEmpty then
            .error (.keyError
              ("Отсутствуют ключи: "
                ++ String.intercalate ", " (missingKeys kvs) ++ "."))
          else
            match verdict with
            | none => .error (.valueError
                ("Статус отсутствует в HOMEWORKS_VERDICTS. Статус: "
                  ++ optPyToStr status ++ "."))
            | some v => .ok
                ("Изменился статус проверки работы \""
                  ++ optPyToStr homework_name ++ "\". " ++ v)
  | _ => .error (.attributeError
      "object has no attribute \x27get\x27")

/-- Function `send_message(bot, message)` (homework.py lines 76-82): calls
`bot.send_message` with no exception handling of its own, so a delivery
failure (`apihelper.ApiException`) propagates to the caller.  The
`deliveryOk` oracle stands for the Telegram channel outcome. -/
def send_message (deliveryOk : Bool) (message : String) :
    Except PyError Unit :=
  if deliveryOk then .ok () else .error (.apiException "telegram send failed")

/-- Python `str()` of an exception, as interpolated into
`f"Сбой в работе программы: ..."` (homework.py line 193).  `str` of a
`KeyError` is the `repr` of its argument, hence the added quotes. -/
def PyError.str : PyError → String
  | .typeError m => m
  | .keyError m => "\x27" ++ m ++ "\x27"
  | .valueError m => m
  | .attributeError m => m
  | .connectionError m => m
  | .statusError m => m
  | .apiException m => m

/-- Model of `response.get("current_date", timestamp)` (homework.py line 187). -/
def pyGetD (v : PyVal) (k : String) (d : PyVal) : PyVal :=
  match v with
  | .pyDict kvs => (dictGet kvs k).getD d
  | _ => d

/-- Assignment `timestamp = int(time.time())` (homework.py line 172): the checkpoint is
created at process start from the current time. -/
def main_initial_timestamp (now : Nat) : PyVal := .pyInt now

/-- The `try:` block of one iteration of the loop in `main` (homework.py lines
175-187).  Returns the send attempts made (messages handed to
`send_message`, in order) paired with either the timestamp after the block
or the exception that escaped it.  An empty `homeworks` list hits
`continue` (lines 179-182): no send, timestamp unchanged, and line 187 is
skipped.  A send attempt is recorded even when it raises, since the call
happens before the exception propagates. -/
def tryBody (timestamp : PyVal) (http : HttpResult) (deliveryOk : Bool) :
    List String × Except PyError PyVal :=
  match get_api_answer timestamp http with
  | .error e => ([], .error e)
  | .ok response =>
      match check_response response with
      | .error e => ([], .error e)
      | .ok [] => ([], .ok timestamp)
      | .ok (hw :: _) =>
          match parse_status hw with
          | .error e => ([], .error e)
          | .ok message =>
              match send_message deliveryOk message with
              | .error e => ([message], .error e)
              | .ok _ => ([message], .ok (pyGetD response "current_date" timestamp))

/-- The loop body with its `except` clauses applied (homework.py lines
189-197), yielding the timestamp after the iteration and the full list of
send attempts.  The first clause is written
`except apihelper.ApiException or requests.exceptions.RequestException:`,
which Python evaluates to `except apihelper.ApiException:` — it only logs.
Every other exception is caught by `except Exception`, formatted into a
single diagnostic message, and handed to `send_message` under
`suppress(Exception)` (the attempt happens whether or not it succeeds). -/
def cycleHandled (timestamp : PyVal) (http : HttpResult)
    (deliveryOk errDeliveryOk : Bool) : PyVal × List String :=
  match tryBody timestamp http deliveryOk with
  | (attempts, .ok ts) => (ts, attempts)
  | (attempts, .error (.apiException _)) => (timestamp, attempts)
  | (attempts, .error e) =>
      let message := "Сбой в работе программы: " ++ PyError.str e
      let _ := send_message errDeliveryOk message
      (timestamp, attempts ++ [message])

/-- Observable result of one full iteration of the `while True` loop in `main`. -/
structure CycleResult where
  timestamp : PyVal
  notifyAttempts : List String
  sleepSeconds : Nat
deriving DecidableEq

/-- One full iteration of the loop in `main` (homework.py lines 174-200):
the handled body followed by the `finally: time.sleep(RETRY_PERIOD)`,
which runs on every control path out of the body. -/
def mainCycle (timestamp : PyVal) (http : HttpResult)
    (deliveryOk errDeliveryOk : Bool) : CycleResult :=
  { timestamp := (cycleHandled timestamp http deliveryOk errDeliveryOk).1
    notifyAttempts := (cycleHandled timestamp http deliveryOk errDeliveryOk).2
    sleepSeconds := RETRY_PERIOD }

/-! ## Error classification helpers -/

/-- Whether an exception is the Telegram delivery failure class
(`apihelper.ApiException`), the one the first `except` clause of `main`
catches. -/
def PyError.isApi : PyError → Bool
  | .apiException _ => true
  | _ => false

/-- Whether an exception is one of the validation ("SchemaError") classes
`check_response` raises: `TypeError` or `KeyError`. -/
def PyError.isSchema : PyError → Bool
  | .typeError _ => true
  | .keyError _ => true
  | _ => false

/-- The failure condition of the spec for the validator, written from the
words of the spec itself (spec §4.2/§8): the payload is not a key-value structure,
or the items-list key (`homeworks`) is absent, or its value is present but
not a sequence.  Compared against `check_response`, which is translated
from the source. -/
def specSchemaBad : PyVal → Bool
  | .pyDict kvs =>
      match dictGet kvs "homeworks" with
      | some (.pyList _) => false
      | _ => true
  | _ => true

/-- Demonstration payload for the duplicate-notification scenario: a page
whose first item is `hw1` with status `reviewing`, and no `current_date`. -/
def repeatItem : PyVal :=
  .pyDict [("homework_name", .pyStr "hw1"), ("status", .pyStr "reviewing")]

/-- The HTTP outcome delivering `repeatItem` on every cycle. -/
def repeatPage : HttpResult :=
  .resp 200 (.pyDict [("homeworks", .pyList [repeatItem])])

/-- The notification text interpreted from `repeatItem`. -/
def repeatMsg : String :=
  "Изменился статус проверки работы \"hw1\". Работа взята на проверку ревьюером."

/-! ## Basic dictionary lemmas -/

theorem dictContains_eq_isSome (kvs : List (String × PyVal)) (k : String) :
    dictContains kvs k = (dictGet kvs k).isSome := by
  induction kvs with
  | nil => rfl
  | cons p rest ih =>
      cases h : (p.1 == k) with
      | true =>
          have hfind : List.find? (fun q => q.1 == k) (p :: rest) = some p :=
            List.find?_cons_of_pos _ h
          simp [dictContains, dictGet, List.any_cons, h, hfind]
      | false =>
          have hfind : List.find? (fun q => q.1 == k) (p :: rest) =
              List.find? (fun q => q.1 == k) rest :=
            List.find?_cons_of_neg _ (by simp [h])
          simp only [dictContains, dictGet, List.any_cons, h, hfind,
            Bool.false_or] at ih ⊢
          exact ih

theorem dictContains_of_get (kvs : List (String × PyVal)) (k : String)
    (v : PyVal) (h : dictGet kvs k = some v) : dictContains kvs k = true := by
  rw [dictContains_eq_isSome, h]; rfl

theorem dictContains_of_get_none (kvs : List (String × PyVal)) (k : String)
    (h : dictGet kvs k = none) : dictContains kvs k = false := by
  rw [dictContains_eq_isSome, h]; rfl

/-! ## check_response lemmas -/

theorem check_response_ok (kvs : List (String × PyVal)) (xs : List PyVal)
    (h : dictGet kvs "homeworks" = some (.pyList xs)) :
    check_response (.pyDict kvs) = .ok xs := by
  have hc : dictContains kvs "homeworks" = true :=
    dictContains_of_get _ _ _ h
  simp [check_response, hc, h]

/-! ## parse_status lemmas -/

theorem verdictsGet_error (o : Option PyVal) (e : PyError)
    (h : verdictsGet o = .error e) : ∃ m, e = .typeError m := by
  cases o with
  | none => simp [verdictsGet] at h
  | some v =>
      cases v <;> simp [verdictsGet] at h <;> exact ⟨_, h.symm⟩

theorem parse_status_ok (kvs : List (String × PyVal)) (v : PyVal)
    (s verdict : String)
    (h1 : dictGet kvs "homework_name" = some v)
    (h2 : dictGet kvs "status" = some (.pyStr s))
    (h3 : verdictsFind s = some verdict) :
    parse_status (.pyDict kvs) =
      .ok ("Изменился статус проверки работы \"" ++ pyToStr v ++ "\". "
        ++ verdict) := by
  have hc1 : dictContains kvs "homework_name" = true :=
    dictContains_of_get _ _ _ h1
  have hc2 : dictContains kvs "status" = true :=
    dictContains_of_get _ _ _ h2
  simp [parse_status, h1, h2, h3, verdictsGet, missingKeys, hc1, hc2,
    optPyToStr]

theorem parse_status_unknown (kvs : List (String × PyVal)) (v : PyVal)
    (s : String)
    (h1 : dictGet kvs "homework_name" = some v)
    (h2 : dictGet kvs "status" = some (.pyStr s))
    (h3 : verdictsFind s = none) :
    parse_status (.pyDict kvs) =
      .error (.valueError
        ("Статус отсутствует в HOMEWORKS_VERDICTS. Статус: " ++ s ++ ".")) := by
  have hc1 : dictContains kvs "homework_name" = true :=
    dictContains_of_get _ _ _ h1
  have hc2 : dictContains kvs "status" = true :=
    dictContains_of_get _ _ _ h2
  simp [parse_status, h1, h2, h3, verdictsGet, missingKeys, hc1, hc2,
    optPyToStr, pyToStr]

theorem parse_status_missing (kvs : List (String × PyVal))
    (hhash : hashableOpt (dictGet kvs "status") = true)
    (hmiss : missingKeys kvs ≠ []) :
    parse_status (.pyDict kvs) =
      .error (.keyError
        ("Отсутствуют ключи: "
          ++ String.intercalate ", " (missingKeys kvs) ++ ".")) := by
  have hne : (missingKeys kvs).isEmpty = false := by
    cases hmk : missingKeys kvs with
    | nil => exact absurd hmk hmiss
    | cons a l => rfl
  cases hs : dictGet kvs "status" with
  | none => simp [parse_status, hs, verdictsGet, hne]
  | some v =>
      cases v with
      | pyStr s => simp [parse_status, hs, verdictsGet, hne]
      | pyInt n => simp [parse_status, hs, verdictsGet, hne]
      | pyNone => simp [parse_status, hs, verdictsGet, hne]
      | pyList xs => rw [hs] at hhash; simp [hashableOpt] at hhash
      | pyDict d => rw [hs] at hhash; simp [hashableOpt] at hhash

theorem parse_status_valueError_both_present (kvs : List (String × PyVal))
    (m : String) (h : parse_status (.pyDict kvs) = .error (.valueError m)) :
    dictContains kvs "homework_name" = true ∧
      dictContains kvs "status" = true := by
  by_cases c1 : dictContains kvs "homework_name" = true
  · by_cases c2 : dictContains kvs "status" = true
    · exact ⟨c1, c2⟩
    · exfalso
      have c2' : dictContains kvs "status" = false := by
        simpa using c2
      have hne : (missingKeys kvs).isEmpty = false := by
        simp [missingKeys, c1, c2']
      cases hv : verdictsGet (dictGet kvs "status") with
      | error e =>
          rcases verdictsGet_error _ _ hv with ⟨me, rfl⟩
          simp [parse_status, hv] at h
      | ok w => simp [parse_status, hv, hne] at h
  · exfalso
    have c1' : dictContains kvs "homework_name" = false := by
      simpa using c1
    have hne : (missingKeys kvs).isEmpty = false := by
      simp [missingKeys, c1']
    cases hv : verdictsGet (dictGet kvs "status") with
    | error e =>
        rcases verdictsGet_error _ _ hv with ⟨me, rfl⟩
        simp [parse_status, hv] at h
    | ok w => simp [parse_status, hv, hne] at h

/-! ## Cycle-path lemmas -/

theorem get_api_answer_not_api (ts : PyVal) (http : HttpResult) (e : PyError)
    (h : get_api_answer ts http = .error e) : e.isApi = false := by
  cases http with
  | exn m =>
      simp only [get_api_answer, Except.error.injEq] at h
      rw [← h]; rfl
  | resp code body =>
      simp only [get_api_answer] at h
      split at h
      · simp only [Except.error.injEq] at h
        rw [← h]; rfl
      · simp at h

theorem check_response_not_api (r : PyVal) (e : PyError)
    (h : check_response r = .error e) : e.isApi = false := by
  cases r with
  | pyDict kvs =>
      simp only [check_response] at h
      split at h
      · simp only [Except.error.injEq] at h
        rw [← h]; rfl
      · split at h
        · simp at h
        · simp only [Except.error.injEq] at h
          rw [← h]; rfl
  | pyStr s =>
      simp only [check_response, Except.error.injEq] at h
      rw [← h]; rfl
  | pyInt n =>
      simp only [check_response, Except.error.injEq] at h
      rw [← h]; rfl
  | pyList xs =>
      simp only [check_response, Except.error.injEq] at h
      rw [← h]; rfl
  | pyNone =>
      simp only [check_response, Except.error.injEq] at h
      rw [← h]; rfl

theorem parse_status_not_api (hw : PyVal) (e : PyError)
    (h : parse_status hw = .error e) : e.isApi = false := by
  cases hw with
  | pyDict kvs =>
      simp only [parse_status] at h
      cases hv : verdictsGet (dictGet kvs "status") with
      | error e1 =>
          rw [hv] at h
          simp only [Except.error.injEq] at h
          rcases verdictsGet_error _ _ hv with ⟨m, rfl⟩
          rw [← h]; rfl
      | ok w =>
          rw [hv] at h
          simp only at h
          split at h
          · simp only [Except.error.injEq] at h
            rw [← h]; rfl
          · cases w with
            | none =>
                simp only [Except.error.injEq] at h
                rw [← h]; rfl
            | some v => simp at h
  | pyStr s =>
      simp only [parse_status, Except.error.injEq] at h
      rw [← h]; rfl
  | pyInt n =>
      simp only [parse_status, Except.error.injEq] at h
      rw [← h]; rfl
  | pyList xs =>
      simp only [parse_status, Except.error.injEq] at h
      rw [← h]; rfl
  | pyNone =>
      simp only [parse_status, Except.error.injEq] at h
      rw [← h]; rfl

theorem tryBody_success (ts : PyVal) (kvs : List (String × PyVal))
    (hw : PyVal) (rest : List PyVal) (msg : String)
    (hs : dictGet kvs "homeworks" = some (.pyList (hw :: rest)))
    (hp : parse_status hw = .ok msg) :
    tryBody ts (.resp 200 (.pyDict kvs)) true =
      ([msg], .ok ((dictGet kvs "current_date").getD ts)) := by
  have hcr := check_response_ok kvs (hw :: rest) hs
  simp [tryBody, get_api_answer, hcr, hp, send_message, pyGetD]

theorem tryBody_sendfail (ts : PyVal) (kvs : List (String × PyVal))
    (hw : PyVal) (rest : List PyVal) (msg : String)
    (hs : dictGet kvs "homeworks" = some (.pyList (hw :: rest)))
    (hp : parse_status hw = .ok msg) :
    tryBody ts (.resp 200 (.pyDict kvs)) false =
      ([msg], .error (.apiException "telegram send failed")) := by
  have hcr := check_response_ok kvs (hw :: rest) hs
  simp [tryBody, get_api_answer, hcr, hp, send_message]

theorem tryBody_empty (ts : PyVal) (kvs : List (String × PyVal))
    (deliveryOk : Bool)
    (hs : dictGet kvs "homeworks" = some (.pyList [])) :
    tryBody ts (.resp 200 (.pyDict kvs)) deliveryOk = ([], .ok ts) := by
  have hcr := check_response_ok kvs [] hs
  simp [tryBody, get_api_answer, hcr]

theorem tryBody_error_not_api (ts : PyVal) (http : HttpResult)
    (deliveryOk : Bool) (e : PyError)
    (h : tryBody ts http deliveryOk = ([], .error e)) : e.isApi = false := by
  simp only [tryBody] at h
  cases hg : get_api_answer ts http with
  | error e1 =>
      simp only [hg, Prod.mk.injEq, Except.error.injEq, true_and] at h
      rw [← h]
      exact get_api_answer_not_api ts http e1 hg
  | ok response =>
      simp only [hg] at h
      cases hc : check_response response with
      | error e2 =>
          simp only [hc, Prod.mk.injEq, Except.error.injEq, true_and] at h
          rw [← h]
          exact check_response_not_api response e2 hc
      | ok hws =>
          simp only [hc] at h
          cases hws with
          | nil => simp at h
          | cons hw rest =>
              cases hp : parse_status hw with
              | error e3 =>
                  simp only [hp, Prod.mk.injEq, Except.error.injEq,
                    true_and] at h
                  rw [← h]
                  exact parse_status_not_api hw e3 hp
              | ok msg =>
                  simp only [hp] at h
                  cases deliveryOk with
                  | true => simp [send_message] at h
                  | false => simp [send_message] at h

theorem mainCycle_error (ts : PyVal) (http : HttpResult)
    (deliveryOk errDeliveryOk : Bool) (e : PyError)
    (h : tryBody ts http deliveryOk = ([], .error e))
    (hna : e.isApi = false) :
    mainCycle ts http deliveryOk errDeliveryOk =
      ⟨ts, ["Сбой в работе программы: " ++ PyError.str e], RETRY_PERIOD⟩ := by
  cases e with
  | apiException m => simp [PyError.isApi] at hna
  | typeError m => unfold mainCycle cycleHandled; rw [h]; rfl
  | keyError m => unfold mainCycle cycleHandled; rw [h]; rfl
  | valueError m => unfold mainCycle cycleHandled; rw [h]; rfl
  | attributeError m => unfold mainCycle cycleHandled; rw [h]; rfl
  | connectionError m => unfold mainCycle cycleHandled; rw [h]; rfl
  | statusError m => unfold mainCycle cycleHandled; rw [h]; rfl

theorem mainCycle_success (ts : PyVal) (kvs : List (String × PyVal))
    (hw : PyVal) (rest : List PyVal) (msg : String) (errDeliveryOk : Bool)
    (hs : dictGet kvs "homeworks" = some (.pyList (hw :: rest)))
    (hp : parse_status hw = .ok msg) :
    mainCycle ts (.resp 200 (.pyDict kvs)) true errDeliveryOk =
      ⟨(dictGet kvs "current_date").getD ts, [msg], RETRY_PERIOD⟩ := by
  unfold mainCycle cycleHandled
  rw [tryBody_success ts kvs hw rest msg hs hp]

theorem mainCycle_empty (ts : PyVal) (kvs : List (String × PyVal))
    (deliveryOk errDeliveryOk : Bool)
    (hs : dictGet kvs "homeworks" = some (.pyList [])) :
    mainCycle ts (.resp 200 (.pyDict kvs)) deliveryOk errDeliveryOk =
      ⟨ts, [], RETRY_PERIOD⟩ := by
  unfold mainCycle cycleHandled
  rw [tryBody_empty ts kvs deliveryOk hs]

theorem mainCycle_sendfail (ts : PyVal) (kvs : List (String × PyVal))
    (hw : PyVal) (rest : List PyVal) (msg : String) (errDeliveryOk : Bool)
    (hs : dictGet kvs "homeworks" = some (.pyList (hw :: rest)))
    (hp : parse_status hw = .ok msg) :
    mainCycle ts (.resp 200 (.pyDict kvs)) false errDeliveryOk =
      ⟨ts, [msg], RETRY_PERIOD⟩ := by
  unfold mainCycle cycleHandled
  rw [tryBody_sendfail ts kvs hw rest msg hs hp]

/-! ## Claim theorems -/

/-- Claim C1, evaluated at the failing input: duplicate suppression does not
happen in the code.  The `check_message` wrapper invokes the wrapped send
on the first submission of a message but leaves `previous_message` equal to
the initial empty string (line 57 compares with `==` instead of assigning),
so the second identical submission invokes the send again.  Moreover the
decorator is commented out (line 75), so `main` calls `send_message`
directly: two consecutive cycles receiving the identical page each produce
a Notifier call. -/
theorem duplicate_suppression_is_broken :
    (check_message_wrapper ⟨""⟩ repeatMsg).2 = true ∧
    (check_message_wrapper ⟨""⟩ repeatMsg).1.previous_message = "" ∧
    (check_message_wrapper (check_message_wrapper ⟨""⟩ repeatMsg).1
      repeatMsg).2 = true ∧
    (mainCycle (.pyInt 0) repeatPage true true).notifyAttempts =
      [repeatMsg] ∧
    (mainCycle (mainCycle (.pyInt 0) repeatPage true true).timestamp
      repeatPage true true).notifyAttempts = [repeatMsg] :=
  ⟨rfl, rfl, rfl, rfl, rfl⟩

/-- Counterexample to claim C2 as stated: a successful cycle whose validated
items list is empty hits `continue` before line 187, so the checkpoint is
NOT set to the server-provided `current_date` (500 here); it stays 100. -/
theorem checkpoint_not_updated_on_empty_cycle :
    (mainCycle (.pyInt 100) (.resp 200 (.pyDict
      [("homeworks", .pyList []), ("current_date", .pyInt 500)]))
      true true).timestamp = .pyInt 100 ∧
    PyVal.pyInt 100 ≠ PyVal.pyInt 500 :=
  ⟨rfl, by decide⟩

/-- Claim C2 (amended): the checkpoint is created at process start from the
current time; it is set to the server-provided `current_date` (when
present, otherwise left unchanged) only after a cycle that found a
non-empty validated items list and completed its notification send; a
cycle with an empty items list leaves it unchanged even when the response
carries `current_date`. -/
theorem checkpoint_update_semantics :
    (∀ now : Nat, main_initial_timestamp now = .pyInt now) ∧
    (∀ (ts : PyVal) (kvs : List (String × PyVal)) (dOk eOk : Bool),
      dictGet kvs "homeworks" = some (.pyList []) →
      (mainCycle ts (.resp 200 (.pyDict kvs)) dOk eOk).timestamp = ts) ∧
    (∀ (ts : PyVal) (kvs : List (String × PyVal)) (hw : PyVal)
        (rest : List PyVal) (msg : String) (eOk : Bool),
      dictGet kvs "homeworks" = some (.pyList (hw :: rest)) →
      parse_status hw = .ok msg →
      (mainCycle ts (.resp 200 (.pyDict kvs)) true eOk).timestamp =
        (dictGet kvs "current_date").getD ts) := by
  refine ⟨fun now => rfl, fun ts kvs dOk eOk hs => ?_,
    fun ts kvs hw rest msg eOk hs hp => ?_⟩
  · rw [mainCycle_empty ts kvs dOk eOk hs]
  · rw [mainCycle_success ts kvs hw rest msg eOk hs hp]

/-- Witness for `checkpoint_update_semantics` at concrete inputs. -/
theorem checkpoint_update_semantics_witness :
    main_initial_timestamp 42 = .pyInt 42 ∧
    (mainCycle (.pyInt 100) (.resp 200 (.pyDict
      [("homeworks", .pyList []), ("current_date", .pyInt 500)]))
      true true).timestamp = .pyInt 100 ∧
    (mainCycle (.pyInt 100) (.resp 200 (.pyDict
      [("homeworks", .pyList [.pyDict
        [("homework_name", .pyStr "hw1"), ("status", .pyStr "approved")]]),
       ("current_date", .pyInt 500)])) true true).timestamp = .pyInt 500 :=
  ⟨checkpoint_update_semantics.1 42,
   checkpoint_update_semantics.2.1 _ _ _ _ rfl,
   checkpoint_update_semantics.2.2 _ _ _ _
     "Изменился статус проверки работы \"hw1\". Работа проверена: ревьюеру всё понравилось. Ура!"
     _ rfl rfl⟩

/-- Counterexample to claim C3 as stated: `send_message` itself does raise on
a delivery failure — the error is not caught inside the Notifier. -/
theorem send_message_raises_on_delivery_failure :
    send_message false "любое сообщение" =
      .error (.apiException "telegram send failed") := rfl

/-- Claim C3 (amended): `send_message` performs no exception handling of its
own; a delivery failure propagates out of it as `ApiException` up to the
PollLoop cycle boundary, where the first `except` clause in `main` catches it
(logging only, with no further notification attempt), the checkpoint stays
unchanged, and the cycle still proceeds to Sleeping. -/
theorem delivery_failure_caught_at_cycle_boundary :
    ∀ (ts : PyVal) (kvs : List (String × PyVal)) (hw : PyVal)
      (rest : List PyVal) (msg : String) (eOk : Bool),
      dictGet kvs "homeworks" = some (.pyList (hw :: rest)) →
      parse_status hw = .ok msg →
      tryBody ts (.resp 200 (.pyDict kvs)) false =
        ([msg], .error (.apiException "telegram send failed")) ∧
      mainCycle ts (.resp 200 (.pyDict kvs)) false eOk =
        ⟨ts, [msg], RETRY_PERIOD⟩ := by
  intro ts kvs hw rest msg eOk hs hp
  exact ⟨tryBody_sendfail ts kvs hw rest msg hs hp,
    mainCycle_sendfail ts kvs hw rest msg eOk hs hp⟩

/-- Witness for `delivery_failure_caught_at_cycle_boundary`. -/
theorem delivery_failure_caught_at_cycle_boundary_witness :
    tryBody (.pyInt 1) (.resp 200 (.pyDict [("homeworks", .pyList
      [.pyDict [("homework_name", .pyStr "hw1"),
                ("status", .pyStr "rejected")]])])) false =
      (["Изменился статус проверки работы \"hw1\". Работа проверена: у ревьюера есть замечания."],
        .error (.apiException "telegram send failed")) ∧
    mainCycle (.pyInt 1) (.resp 200 (.pyDict [("homeworks", .pyList
      [.pyDict [("homework_name", .pyStr "hw1"),
                ("status", .pyStr "rejected")]])])) false true =
      ⟨.pyInt 1,
       ["Изменился статус проверки работы \"hw1\". Работа проверена: у ревьюера есть замечания."],
       RETRY_PERIOD⟩ :=
  delivery_failure_caught_at_cycle_boundary _ _ _ _ _ _ rfl rfl

/-- Counterexample to claim C4 as stated: with previous checkpoint 1000, a
successful cycle whose response carries `current_date = 5` makes the next
request checkpoint 5, which is smaller than 1000 — non-regression fails
for this server-returned value. -/
theorem checkpoint_regression_on_small_server_value :
    (mainCycle (.pyInt 1000) (.resp 200 (.pyDict
      [("homeworks", .pyList [.pyDict
        [("homework_name", .pyStr "hw1"), ("status", .pyStr "reviewing")]]),
       ("current_date", .pyInt 5)])) true true).timestamp = .pyInt 5 ∧
    ¬ ((1000 : Int) ≤ 5) :=
  ⟨rfl, by decide⟩

/-- Claim C4 (amended): after a successful sending cycle the next request
checkpoint equals the server-provided `current_date` verbatim when the
field is present — the code enforces no non-regression, so the checkpoint
is ≥ the previous one only when the server value is; when the field is
absent the checkpoint is unchanged and non-regression holds trivially. -/
theorem checkpoint_follows_server_value :
    (∀ (ts : PyVal) (kvs : List (String × PyVal)) (hw : PyVal)
        (rest : List PyVal) (msg : String) (eOk : Bool) (v : PyVal),
      dictGet kvs "homeworks" = some (.pyList (hw :: rest)) →
      parse_status hw = .ok msg →
      dictGet kvs "current_date" = some v →
      (mainCycle ts (.resp 200 (.pyDict kvs)) true eOk).timestamp = v) ∧
    (∀ (ts : PyVal) (kvs : List (String × PyVal)) (hw : PyVal)
        (rest : List PyVal) (msg : String) (eOk : Bool),
      dictGet kvs "homeworks" = some (.pyList (hw :: rest)) →
      parse_status hw = .ok msg →
      dictGet kvs "current_date" = none →
      (mainCycle ts (.resp 200 (.pyDict kvs)) true eOk).timestamp = ts) := by
  constructor
  · intro ts kvs hw rest msg eOk v hs hp hc
    rw [mainCycle_success ts kvs hw rest msg eOk hs hp]
    simp [hc]
  · intro ts kvs hw rest msg eOk hs hp hc
    rw [mainCycle_success ts kvs hw rest msg eOk hs hp]
    simp [hc]

/-- Witness for `checkpoint_follows_server_value`. -/
theorem checkpoint_follows_server_value_witness :
    (mainCycle (.pyInt 1000) (.resp 200 (.pyDict
      [("homeworks", .pyList [.pyDict
        [("homework_name", .pyStr "hw2"), ("status", .pyStr "reviewing")]]),
       ("current_date", .pyInt 2000)])) true true).timestamp = .pyInt 2000 ∧
    (mainCycle (.pyInt 1000) (.resp 200 (.pyDict
      [("homeworks", .pyList [.pyDict
        [("homework_name", .pyStr "hw2"), ("status", .pyStr "reviewing")]])]))
      true true).timestamp = .pyInt 1000 :=
  ⟨checkpoint_follows_server_value.1 _ _ _ _ _ _ _ rfl rfl rfl,
   checkpoint_follows_server_value.2 _ _ _ _ _ _ rfl rfl rfl⟩

/-- Claim C5: any error raised during fetching, validating or interpreting —
exactly the executions whose `try` block ends in an exception with no send
attempt made — is caught at the cycle boundary and never escapes
(`mainCycle` is total and returns an ordinary result); it is formatted
into the single diagnostic message, the Notifier is called exactly once
with that failure message, the checkpoint is left unchanged and the cycle
still ends with the fixed sleep. -/
theorem failure_containment :
    ∀ (ts : PyVal) (http : HttpResult) (deliveryOk errDeliveryOk : Bool)
      (e : PyError),
      tryBody ts http deliveryOk = ([], .error e) →
      mainCycle ts http deliveryOk errDeliveryOk =
        ⟨ts, ["Сбой в работе программы: " ++ PyError.str e],
          RETRY_PERIOD⟩ := by
  intro ts http deliveryOk errDeliveryOk e h
  exact mainCycle_error ts http deliveryOk errDeliveryOk e h
    (tryBody_error_not_api ts http deliveryOk e h)

/-- Witness for `failure_containment`: a transport failure (the request
raises) is contained and reported once. -/
theorem failure_containment_witness :
    tryBody (.pyInt 7) (.exn "timeout") true =
      ([], .error (.connectionError "Произошла ошибка: timeout.")) ∧
    mainCycle (.pyInt 7) (.exn "timeout") true true =
      ⟨.pyInt 7, ["Сбой в работе программы: Произошла ошибка: timeout."],
        RETRY_PERIOD⟩ :=
  ⟨rfl, failure_containment (.pyInt 7) (.exn "timeout") true true
    (.connectionError "Произошла ошибка: timeout.") rfl⟩

/-- Claim C6: `check_response` fails — and with a schema-class error
(`TypeError`/`KeyError`) — exactly when the payload is not a dict, or the
`homeworks` key is absent, or its value is present but not a list
(`specSchemaBad`, written from the words of the spec); and a present, empty
`homeworks` list succeeds with the empty sequence. -/
theorem check_response_schema_error_iff :
    (∀ r : PyVal,
      (∃ e, check_response r = .error e ∧ PyError.isSchema e = true) ↔
        specSchemaBad r = true) ∧
    (∀ kvs : List (String × PyVal),
      dictGet kvs "homeworks" = some (.pyList []) →
      check_response (.pyDict kvs) = .ok []) := by
  constructor
  · intro r
    cases r with
    | pyDict kvs =>
        cases h : dictGet kvs "homeworks" with
        | none =>
            have hc := dictContains_of_get_none kvs "homeworks" h
            simp [check_response, specSchemaBad, hc, h, PyError.isSchema]
        | some v =>
            have hc := dictContains_of_get kvs "homeworks" v h
            cases v <;>
              simp [check_response, specSchemaBad, hc, h, PyError.isSchema]
    | pyStr s => simp [check_response, specSchemaBad, PyError.isSchema]
    | pyInt n => simp [check_response, specSchemaBad, PyError.isSchema]
    | pyList xs => simp [check_response, specSchemaBad, PyError.isSchema]
    | pyNone => simp [check_response, specSchemaBad, PyError.isSchema]
  · intro kvs h
    exact check_response_ok kvs [] h

/-- Witness for `check_response_schema_error_iff`. -/
theorem check_response_schema_error_iff_witness :
    ((∃ e, check_response (.pyDict []) = .error e ∧
        PyError.isSchema e = true) ↔ specSchemaBad (.pyDict []) = true) ∧
    check_response (.pyDict [("homeworks", .pyList [])]) = .ok [] :=
  ⟨check_response_schema_error_iff.1 _,
   check_response_schema_error_iff.2 _ rfl⟩

/-- Claim C7: for an item with the identifier field present and a status
string in the verdict table, `parse_status` succeeds with the
deterministic message built from the identifier and the mapped verdict
phrase; for an item whose status is any other string it fails with the
unknown-status `ValueError`. -/
theorem parse_status_interpreter_correct :
    (∀ (kvs : List (String × PyVal)) (v : PyVal) (s verdict : String),
      dictGet kvs "homework_name" = some v →
      dictGet kvs "status" = some (.pyStr s) →
      verdictsFind s = some verdict →
      parse_status (.pyDict kvs) =
        .ok ("Изменился статус проверки работы \"" ++ pyToStr v ++ "\". "
          ++ verdict)) ∧
    (∀ (kvs : List (String × PyVal)) (v : PyVal) (s : String),
      dictGet kvs "homework_name" = some v →
      dictGet kvs "status" = some (.pyStr s) →
      verdictsFind s = none →
      parse_status (.pyDict kvs) =
        .error (.valueError
          ("Статус отсутствует в HOMEWORKS_VERDICTS. Статус: "
            ++ s ++ "."))) :=
  ⟨fun kvs v s verdict h1 h2 h3 => parse_status_ok kvs v s verdict h1 h2 h3,
   fun kvs v s h1 h2 h3 => parse_status_unknown kvs v s h1 h2 h3⟩

/-- Witness for `parse_status_interpreter_correct`. -/
theorem parse_status_interpreter_correct_witness :
    parse_status (.pyDict [("homework_name", .pyStr "hw1"),
        ("status", .pyStr "reviewing")]) =
      .ok "Изменился статус проверки работы \"hw1\". Работа взята на проверку ревьюером." ∧
    parse_status (.pyDict [("homework_name", .pyStr "hw1"),
        ("status", .pyStr "waiting")]) =
      .error (.valueError
        "Статус отсутствует в HOMEWORKS_VERDICTS. Статус: waiting.") :=
  ⟨parse_status_interpreter_correct.1
     [("homework_name", .pyStr "hw1"), ("status", .pyStr "reviewing")]
     (.pyStr "hw1") "reviewing" "Работа взята на проверку ревьюером."
     rfl rfl rfl,
   parse_status_interpreter_correct.2
     [("homework_name", .pyStr "hw1"), ("status", .pyStr "waiting")]
     (.pyStr "hw1") "waiting" rfl rfl rfl⟩

/-- Claim C8: every cycle — success, empty-list skip, or any handled failure —
ends with the same fixed `time.sleep(RETRY_PERIOD)` delay of 600: it sits
in the `finally:` clause, so no control path through the loop body skips
it. -/
theorem every_cycle_sleeps_retry_period :
    (∀ (ts : PyVal) (http : HttpResult) (deliveryOk errDeliveryOk : Bool),
      (mainCycle ts http deliveryOk errDeliveryOk).sleepSeconds =
        RETRY_PERIOD) ∧
    RETRY_PERIOD = 600 :=
  ⟨fun ts http deliveryOk errDeliveryOk => rfl, rfl⟩

/-- Counterexample to claim C9 as stated: for the item `{"status": []}` the
identifier field is absent, yet `parse_status` does not raise the
missing-field `KeyError` naming `homework_name` — the verdict lookup at
line 149 runs first and raises `TypeError` (unhashable key), preempting
the missing-keys check at lines 151-154. -/
theorem parse_status_unhashable_preempts_missing_key :
    parse_status (.pyDict [("status", .pyList [])]) =
      .error (.typeError "unhashable type: \x27list\x27") ∧
    (∀ m, PyError.typeError "unhashable type: \x27list\x27" ≠
      PyError.keyError m) :=
  ⟨rfl, fun m h => PyError.noConfusion h⟩

/-- Claim C9 (amended): when the status value (if present) is hashable — in
particular any string, number, `None`, or when `status` is itself absent —
a missing identifier or status field makes `parse_status` raise the
missing-field `KeyError` naming exactly the absent field(s); only an
unhashable present status value (list/dict) preempts it with `TypeError`.
The unknown-status `ValueError` can only be raised when both fields are
present, so a missing status key is never reported as an unknown
status. -/
theorem parse_status_missing_field_precedence :
    (∀ kvs : List (String × PyVal),
      hashableOpt (dictGet kvs "status") = true →
      missingKeys kvs ≠ [] →
      parse_status (.pyDict kvs) =
        .error (.keyError
          ("Отсутствуют ключи: "
            ++ String.intercalate ", " (missingKeys kvs) ++ "."))) ∧
    (∀ (kvs : List (String × PyVal)) (m : String),
      parse_status (.pyDict kvs) = .error (.valueError m) →
      dictContains kvs "homework_name" = true ∧
        dictContains kvs "status" = true) :=
  ⟨fun kvs hh hm => parse_status_missing kvs hh hm,
   fun kvs m h => parse_status_valueError_both_present kvs m h⟩

/-- Witness for `parse_status_missing_field_precedence`: a missing identifier
with a present string status is reported as the missing field, and a
concrete unknown-status failure has both fields present. -/
theorem parse_status_missing_field_precedence_witness :
    parse_status (.pyDict [("status", .pyStr "reviewing")]) =
      .error (.keyError "Отсутствуют ключи: homework_name.") ∧
    (dictContains [("homework_name", .pyStr "hw1"),
        ("status", .pyStr "waiting")] "homework_name" = true ∧
      dictContains [("homework_name", .pyStr "hw1"),
        ("status", .pyStr "waiting")] "status" = true) :=
  ⟨parse_status_missing_field_precedence.1 _ rfl (by decide),
   parse_status_missing_field_precedence.2 _
     "Статус отсутствует в HOMEWORKS_VERDICTS. Статус: waiting." rfl⟩

/-- Claim C10: validation is container-only — any dict payload whose
`homeworks` key holds a list passes `check_response`, which returns that
list exactly as ordered, whatever the elements are; item shape is only
examined later, by `parse_status` on the first item. -/
theorem check_response_is_container_only :
    ∀ (kvs : List (String × PyVal)) (xs : List PyVal),
      dictGet kvs "homeworks" = some (.pyList xs) →
      check_response (.pyDict kvs) = .ok xs :=
  fun kvs xs h => check_response_ok kvs xs h

/-- Witness for `check_response_is_container_only`: malformed items (a
number, `None`, a bare string) pass validation untouched. -/
theorem check_response_is_container_only_witness :
    check_response (.pyDict [("homeworks", .pyList
      [.pyInt 3, .pyNone, .pyStr "not a homework"])]) =
      .ok [.pyInt 3, .pyNone, .pyStr "not a homework"] :=
  check_response_is_container_only _ _ rfl
